import Mathlib

/-!
Shallow embedding of the task-management server's core business logic
(task lifecycle service, task entity validator, user account service)
for verification of its natural-language specification.

Conventions of the embedding:
* The persistence gateway (PostgreSQL) is modelled as an in-memory list of
  rows; each repository method takes the current row list and returns the
  value the TypeScript method resolves with, paired with the new row list
  where the method writes.
* Thrown `ApiError`s become `Except.error`; resolved values become
  `Except.ok`.
* JavaScript `Date` values are modelled as a local-calendar day number plus
  milliseconds within the day; `setHours(0,0,0,0)` zeroes the millisecond
  component, `setDate(getDate()+n)` adds `n` to the day number, and `Date`
  comparison compares the combined millisecond timestamp.
* External collaborators (bcrypt compare/hash, JWT signing) are passed in
  as function parameters, mirroring their role as opaque collaborators.
* `new Date()` is passed in as an explicit `now : DateTime` parameter;
  a single service call is evaluated at one fixed instant.
-/

deriving instance DecidableEq for Except

/-- JavaScript `String.prototype.trim` whitespace (restricted to the
ASCII whitespace characters, which suffice for the claims). -/
def isJsWhitespace (c : Char) : Bool :=
  c == ' ' || c == '\t' || c == '\n' || c == '\r'

/-- JavaScript `s.trim()` (defined over the character list so that it
evaluates inside the kernel). -/
def jsTrim (s : String) : String :=
  String.mk
    (((s.toList.dropWhile isJsWhitespace).reverse.dropWhile
      isJsWhitespace).reverse)

/-- Model of a JavaScript `Date`: local-calendar day number (may be
negative) and milliseconds elapsed within that day. -/
structure DateTime where
  day : Int
  ms : Nat
deriving DecidableEq, Repr

/-- Millisecond timestamp of a `DateTime`; JS `Date` comparison compares
these numbers. -/
def DateTime.toMs (d : DateTime) : Int :=
  d.day * 86400000 + (d.ms : Int)

/-- A JavaScript runtime value supplied in a `due_date` field of a JSON
request body.  The embedding records the two observations the code makes
of such a value: its truthiness (`if (data.due_date)`) and the result of
`new Date(value)` (`some` a date, or `none` for an Invalid Date).
`dateObj` covers `Date` objects and parseable date strings (truthy,
parseable); `emptyStr` is the empty string (falsy, unparseable); `badStr`
is a non-empty unparseable string (truthy, unparseable).  The degenerate
JSON values `0`/`null`/`false` (falsy yet parsed by `new Date` as the 1970
epoch) are omitted from the model. -/
inductive JsDateInput where
  | dateObj (d : DateTime)
  | emptyStr
  | badStr
deriving DecidableEq, Repr

/-- JS truthiness of the modelled `due_date` value. -/
def JsDateInput.truthy : JsDateInput → Bool
  | .dateObj _ => true
  | .emptyStr => false
  | .badStr => true

/-- `new Date(value)`: `some` the parsed date, `none` for Invalid Date. -/
def JsDateInput.parse : JsDateInput → Option DateTime
  | .dateObj d => some d
  | .emptyStr => none
  | .badStr => none

/-- Truthiness of an optional `due_date` field (`undefined` is falsy). -/
def jsOptTruthy (o : Option JsDateInput) : Bool :=
  match o with
  | some j => j.truthy
  | none => false

/-- `ApiError` from `utils/error.utils.ts`: message, HTTP status code and
stable machine-readable code (the `errors` array field is never populated
on the paths modelled here and is omitted). -/
structure ApiError where
  message : String
  statusCode : Nat
  code : String
deriving DecidableEq, Repr

/-- `ApiError.badRequest`: status 400. -/
def ApiError.badRequest (message : String) (code : String) : ApiError :=
  { message := message, statusCode := 400, code := code }

/-- `ApiError.unauthorized`: status 401. -/
def ApiError.unauthorized (message : String) (code : String) : ApiError :=
  { message := message, statusCode := 401, code := code }

/-- `ApiError.forbidden`: status 403. -/
def ApiError.forbidden (message : String) (code : String) : ApiError :=
  { message := message, statusCode := 403, code := code }

/-- `ApiError.notFound`: status 404. -/
def ApiError.notFound (message : String) (code : String) : ApiError :=
  { message := message, statusCode := 404, code := code }

/-- The `TaskStatus` enum is a string enum; statuses live in the database
as strings, so the model keeps them as `String`. -/
def TaskStatus.pending : String := "pending"

/-- `TaskStatus.IN_PROGRESS`. -/
def TaskStatus.in_progress : String := "in_progress"

/-- `TaskStatus.COMPLETED`. -/
def TaskStatus.completed : String := "completed"

/-- `TaskStatus.CANCELLED`. -/
def TaskStatus.cancelled : String := "cancelled"

/-- `Object.values(TaskStatus)`. -/
def TaskStatus.values : List String :=
  [TaskStatus.pending, TaskStatus.in_progress, TaskStatus.completed,
   TaskStatus.cancelled]

/-- A task row (`ITask` after `Task.fromDatabaseRow`). -/
structure ITask where
  task_id : Nat
  user_id : Nat
  category_id : Option Nat
  priority_id : Option Nat
  title : String
  description : Option String
  due_date : Option DateTime
  status : String
  created_at : DateTime
  updated_at : DateTime
deriving DecidableEq, Repr

/-- `ITaskCreate` as it arrives at runtime from a JSON body: fields may be
absent, and a `status` key may be present even though the TypeScript
interface lacks it (the INSERT ignores it).  `user_id = some 0` and
`title = some ""` are distinct from absence because JS truthiness treats
them like absence only at specific checks. -/
structure ITaskCreate where
  user_id : Option Nat
  title : Option String
  description : Option String
  category_id : Option Nat
  priority_id : Option Nat
  due_date : Option JsDateInput
  status : Option String
deriving DecidableEq, Repr

/-- `ITaskUpdate` as it arrives at runtime from a JSON body. -/
structure ITaskUpdate where
  title : Option String
  description : Option String
  category_id : Option Nat
  priority_id : Option Nat
  due_date : Option JsDateInput
  status : Option String
deriving DecidableEq, Repr

/-- `ITaskQuery` (filter parameters for `findByUserId`). -/
structure ITaskQuery where
  priority_id : Option Nat
  category_id : Option Nat
  status : Option String
  due_date : Option DateTime
  search : Option String
deriving DecidableEq, Repr

/-- `Task.validateCreate` (`models/task.model.ts`): `USER_ID_REQUIRED` if
`user_id` is falsy; `INVALID_TITLE` if `title` is falsy or blank after
trimming; `INVALID_TITLE_LENGTH` if over 100 characters;
`INVALID_DUE_DATE` if `due_date` is truthy and `new Date(due_date)` is
Invalid Date. -/
def Task.validateCreate (data : ITaskCreate) : Except ApiError Unit :=
  if (match data.user_id with
      | some n => n == 0
      | none => true) then
    .error (ApiError.badRequest "User ID is required" "USER_ID_REQUIRED")
  else if (match data.title with
      | some t => (jsTrim t).length == 0
      | none => true) then
    .error (ApiError.badRequest "Task title is required" "INVALID_TITLE")
  else if (match data.title with
      | some t => decide (t.length > 100)
      | none => false) then
    .error (ApiError.badRequest "Task title must be 100 characters or less"
      "INVALID_TITLE_LENGTH")
  else if jsOptTruthy data.due_date
      && (match data.due_date with
          | some j => j.parse == none
          | none => false) then
    .error (ApiError.badRequest "Invalid due date format" "INVALID_DUE_DATE")
  else
    .ok ()

/-- `Object.keys(data).length === 0` for an update payload. -/
def ITaskUpdate.isEmptyPayload (data : ITaskUpdate) : Bool :=
  data.title == none && data.description == none
    && data.category_id == none && data.priority_id == none
    && data.due_date == none && data.status == none

/-- `Task.validateUpdate` (`models/task.model.ts`): `NO_UPDATE_DATA` on an
empty payload; title checks when `title !== undefined`; `INVALID_DUE_DATE`
when `due_date` is truthy and unparseable; `INVALID_STATUS` when `status`
is truthy and outside the enum. -/
def Task.validateUpdate (data : ITaskUpdate) : Except ApiError Unit :=
  if data.isEmptyPayload then
    .error (ApiError.badRequest "No data provided for update" "NO_UPDATE_DATA")
  else if (match data.title with
      | some t => (jsTrim t).length == 0
      | none => false) then
    .error (ApiError.badRequest "Task title cannot be empty" "INVALID_TITLE")
  else if (match data.title with
      | some t => decide (t.length > 100)
      | none => false) then
    .error (ApiError.badRequest "Task title must be 100 characters or less"
      "INVALID_TITLE_LENGTH")
  else if (match data.due_date with
      | some j => j.truthy && j.parse == none
      | none => false) then
    .error (ApiError.badRequest "Invalid due date format" "INVALID_DUE_DATE")
  else if (match data.status with
      | some s => !(s == "") && !(TaskStatus.values.contains s)
      | none => false) then
    .error (ApiError.badRequest
      "Status must be one of: pending, in_progress, completed, cancelled"
      "INVALID_STATUS")
  else
    .ok ()

/-- Comparator realising `ORDER BY due_date ASC NULLS LAST, created_at
DESC`; ties beyond the two sort keys are left in list order. -/
def taskOrder (a b : ITask) : Bool :=
  match a.due_date, b.due_date with
  | some da, some db => if da.toMs == db.toMs
      then decide (b.created_at.toMs ≤ a.created_at.toMs)
      else decide (da.toMs < db.toMs)
  | some _, none => true
  | none, some _ => false
  | none, none => decide (b.created_at.toMs ≤ a.created_at.toMs)

/-- Insertion step of the sort used to model the SQL `ORDER BY`. -/
def insertTask (a : ITask) : List ITask → List ITask
  | [] => [a]
  | b :: l => if taskOrder a b then a :: b :: l else b :: insertTask a l

/-- Insertion sort modelling the SQL `ORDER BY` clause (the claims below
only depend on which rows are returned, not on their order). -/
def sortTasks : List ITask → List ITask
  | [] => []
  | a :: l => insertTask a (sortTasks l)

/-- Boolean substring check on character lists (models SQL `LIKE
'%pat%'`). -/
def charsContain (pat : List Char) : List Char → Bool
  | [] => pat.isEmpty
  | c :: rest => pat.isPrefixOf (c :: rest) || charsContain pat rest

/-- `a ILIKE '%pat%'`: case-insensitive substring match. -/
def ilikeContains (pat s : String) : Bool :=
  charsContain (pat.toList.map Char.toLower) (s.toList.map Char.toLower)

/-- The `WHERE` conditions `findByUserId` builds from its optional
`ITaskQuery` (the `user_id = $1` condition is handled by the caller).
`search` is only applied when truthy; `description ILIKE` is false on a
NULL description (SQL three-valued logic); `DATE(due_date) = DATE($n)`
compares calendar days and is false on a NULL due_date. -/
def matchesTaskQuery (t : ITask) : Option ITaskQuery → Bool
  | none => true
  | some q =>
    (match q.category_id with
      | some c => t.category_id == some c
      | none => true)
    && (match q.priority_id with
      | some p => t.priority_id == some p
      | none => true)
    && (match q.status with
      | some s => t.status == s
      | none => true)
    && (match q.due_date with
      | some d => (match t.due_date with
          | some td => td.day == d.day
          | none => false)
      | none => true)
    && (match q.search with
      | some s => if s == "" then true
          else ilikeContains s t.title
            || (match t.description with
               | some de => ilikeContains s de
               | none => false)
      | none => true)

/-- `TaskRepository.findById`: `SELECT * FROM tasks WHERE task_id = $1`. -/
def TaskRepository.findById (db : List ITask) (id : Nat) : Option ITask :=
  db.find? (fun t => t.task_id == id)

/-- Next value of the `task_id` serial sequence (model). -/
def nextTaskId (db : List ITask) : Nat :=
  db.foldr (fun t m => max t.task_id m) 0 + 1

/-- `TaskRepository.create`: runs `Task.validateCreate`, then INSERTs with
the status column hard-wired to `TaskStatus.PENDING`; any `status` in the
payload is ignored.  If a validated payload still carries an unparseable
`due_date` (only possible for the falsy empty string), Postgres rejects
the INSERT and the catch block wraps it as a 500 `ApiError`.
`row.category_id || null` and `row.description || null` from
`fromDatabaseRow` normalise falsy column values to null. -/
def TaskRepository.create (db : List ITask) (data : ITaskCreate)
    (now : DateTime) : Except ApiError (ITask × List ITask) :=
  match Task.validateCreate data with
  | .error e => .error e
  | .ok _ =>
    if (match data.due_date with
        | some j => j.parse == none
        | none => false) then
      .error { message := "Error creating task", statusCode := 500,
               code := "SERVER_ERROR" }
    else
      let t : ITask :=
        { task_id := nextTaskId db
          user_id := data.user_id.getD 0
          category_id := (match data.category_id with
            | some 0 => none
            | x => x)
          priority_id := (match data.priority_id with
            | some 0 => none
            | x => x)
          title := data.title.getD ""
          description := (match data.description with
            | some "" => none
            | x => x)
          due_date := data.due_date.bind JsDateInput.parse
          status := TaskStatus.pending
          created_at := now
          updated_at := now }
      .ok (t, db ++ [t])

/-- `UPDATE ... WHERE task_id = id` on the modelled row list. -/
def replaceTask (db : List ITask) (id : Nat) (t' : ITask) : List ITask :=
  db.map (fun t => if t.task_id == id then t' else t)

/-- Whether an update payload contributes at least one SET clause
(`updates.length > 0`); every key of the payload is pushed when it is
`!== undefined`. -/
def ITaskUpdate.hasSetClause (data : ITaskUpdate) : Bool :=
  !data.isEmptyPayload

/-- Applying the SET clauses of `TaskRepository.update` to a row.
`due_date` stores the parsed date; `description` is normalised through
`fromDatabaseRow`'s `|| null` on read-back. -/
def ITaskUpdate.applyTo (data : ITaskUpdate) (t : ITask) (now : DateTime) :
    ITask :=
  { t with
    title := data.title.getD t.title
    description := (match data.description with
      | some "" => none
      | some d => some d
      | none => t.description)
    category_id := (match data.category_id with
      | some 0 => none
      | some c => some c
      | none => t.category_id)
    priority_id := (match data.priority_id with
      | some 0 => none
      | some p => some p
      | none => t.priority_id)
    due_date := (match data.due_date with
      | some j => j.parse
      | none => t.due_date)
    status := data.status.getD t.status
    updated_at := now }

/-- `TaskRepository.update`: re-reads the row (null when absent), runs
`Task.validateUpdate`, returns the unchanged row when no SET clause is
built, and otherwise UPDATEs.  A payload whose `due_date` survived
validation but is unparseable (the falsy empty string) is rejected by
Postgres; the catch block wraps that as a 500 `ApiError`. -/
def TaskRepository.update (db : List ITask) (id : Nat) (data : ITaskUpdate)
    (now : DateTime) : Except ApiError (Option (ITask × List ITask)) :=
  match TaskRepository.findById db id with
  | none => .ok none
  | some existingTask =>
    match Task.validateUpdate data with
    | .error e => .error e
    | .ok _ =>
      if !data.hasSetClause then .ok (some (existingTask, db))
      else if (match data.due_date with
          | some j => j.parse == none
          | none => false) then
        .error { message := "Error updating task", statusCode := 500,
                 code := "SERVER_ERROR" }
      else
        let t' := data.applyTo existingTask now
        .ok (some (t', replaceTask db id t'))

/-- `TaskRepository.delete`: `DELETE ... RETURNING`; true iff a row was
deleted. -/
def TaskRepository.delete (db : List ITask) (id : Nat) :
    Bool × List ITask :=
  (db.any (fun t => t.task_id == id),
   db.filter (fun t => !(t.task_id == id)))

/-- `TaskRepository.findByUserId`: rows with `user_id = $1`, narrowed by
the optional query filters, ordered by the `ORDER BY` clause. -/
def TaskRepository.findByUserId (db : List ITask) (userId : Nat)
    (queryParams : Option ITaskQuery) : List ITask :=
  sortTasks (db.filter
    (fun t => t.user_id == userId && matchesTaskQuery t queryParams))

/-- `TaskRepository.changeStatus`: rejects a status outside the enum with
`INVALID_STATUS`, then UPDATEs the status column; null when the row does
not exist. -/
def TaskRepository.changeStatus (db : List ITask) (taskId : Nat)
    (status : String) (now : DateTime) :
    Except ApiError (Option (ITask × List ITask)) :=
  if !(TaskStatus.values.contains status) then
    .error (ApiError.badRequest
      "Status must be one of: pending, in_progress, completed, cancelled"
      "INVALID_STATUS")
  else
    match TaskRepository.findById db taskId with
    | none => .ok none
    | some t =>
      let t' := { t with status := status, updated_at := now }
      .ok (some (t', replaceTask db taskId t'))

/-- `TaskService.authorizeTaskOperation`: throws `FORBIDDEN` when the
caller is not the row's owner and not an admin.  Every service call site
omits the `isAdmin` argument, so it is always `false` there. -/
def TaskService.authorizeTaskOperation (task : ITask) (userId : Nat)
    (isAdmin : Bool) : Except ApiError Unit :=
  if task.user_id != userId && !isAdmin then
    .error (ApiError.forbidden
      "Not authorized to perform this action on this task" "FORBIDDEN")
  else
    .ok ()

/-- `TaskService.validateDueDate`: when the argument is truthy, compares
the due date against `new Date()` with both sides floored to midnight
(`setHours(0,0,0,0)`), i.e. compares day numbers; `INVALID_DUE_DATE` when
the due day is strictly before today.  Comparisons against an Invalid
Date (NaN) are false in JS, so an unparseable value never fails here. -/
def TaskService.validateDueDate (dueDate : Option JsDateInput)
    (now : DateTime) : Except ApiError Unit :=
  match dueDate with
  | none => .ok ()
  | some j =>
    if j.truthy then
      match j.parse with
      | some d =>
        if d.day < now.day then
          .error (ApiError.badRequest "Due date cannot be in the past"
            "INVALID_DUE_DATE")
        else .ok ()
      | none => .ok ()
    else .ok ()

/-- `TaskService.createTask`: validates the due date when the payload's
`due_date` is truthy, then delegates to `TaskRepository.create`. -/
def TaskService.createTask (db : List ITask) (taskData : ITaskCreate)
    (now : DateTime) : Except ApiError (ITask × List ITask) :=
  match (if jsOptTruthy taskData.due_date
         then TaskService.validateDueDate taskData.due_date now
         else .ok ()) with
  | .error e => .error e
  | .ok _ => TaskRepository.create db taskData now

/-- `TaskService.updateTask`: loads the row (null when absent), authorizes
the caller (`isAdmin` never passed, hence `false`), validates a truthy
`due_date`, then delegates to `TaskRepository.update`. -/
def TaskService.updateTask (db : List ITask) (taskId : Nat)
    (taskData : ITaskUpdate) (userId : Nat) (now : DateTime) :
    Except ApiError (Option (ITask × List ITask)) :=
  match TaskRepository.findById db taskId with
  | none => .ok none
  | some existingTask =>
    match TaskService.authorizeTaskOperation existingTask userId false with
    | .error e => .error e
    | .ok _ =>
      match (if jsOptTruthy taskData.due_date
             then TaskService.validateDueDate taskData.due_date now
             else .ok ()) with
      | .error e => .error e
      | .ok _ => TaskRepository.update db taskId taskData now

/-- `TaskService.deleteTask`: loads the row (false when absent),
authorizes the caller, then deletes. -/
def TaskService.deleteTask (db : List ITask) (taskId : Nat)
    (userId : Nat) : Except ApiError (Bool × List ITask) :=
  match TaskRepository.findById db taskId with
  | none => .ok (false, db)
  | some existingTask =>
    match TaskService.authorizeTaskOperation existingTask userId false with
    | .error e => .error e
    | .ok _ => .ok (TaskRepository.delete db taskId)

/-- `TaskService.changeTaskStatus`: loads the row (null when absent),
authorizes the caller, rejects a status outside the enum with
`INVALID_STATUS`, then delegates to `TaskRepository.changeStatus` (the
completion hook is a no-op `console.log`). -/
def TaskService.changeTaskStatus (db : List ITask) (taskId : Nat)
    (status : String) (userId : Nat) (now : DateTime) :
    Except ApiError (Option (ITask × List ITask)) :=
  match TaskRepository.findById db taskId with
  | none => .ok none
  | some existingTask =>
    match TaskService.authorizeTaskOperation existingTask userId false with
    | .error e => .error e
    | .ok _ =>
      if !(TaskStatus.values.contains status) then
        .error (ApiError.badRequest
          "Status must be one of: pending, in_progress, completed, cancelled"
          "INVALID_STATUS")
      else TaskRepository.changeStatus db taskId status now

/-- `TaskService.getTasksDueSoon`: fetches the user's tasks, computes
`cutoffDate = now + days` via `setDate(getDate() + days)`, and keeps the
tasks with a due date that are not completed and whose due date lies in
the inclusive window between `now` and the cutoff.  The `days` parameter
defaults to 3 at the call boundary; the embedding takes it explicitly. -/
def TaskService.getTasksDueSoon (db : List ITask) (userId : Nat)
    (days : Int) (now : DateTime) : List ITask :=
  let userTasks := TaskRepository.findByUserId db userId none
  let cutoffDate : DateTime := { day := now.day + days, ms := now.ms }
  userTasks.filter (fun t =>
    match t.due_date with
    | none => false
    | some dueDate =>
      if t.status == TaskStatus.completed then false
      else decide (dueDate.toMs ≤ cutoffDate.toMs)
        && decide (now.toMs ≤ dueDate.toMs))

/-- `TaskService.getOverdueTasks`: fetches the user's tasks and keeps the
ones with a due date strictly before `now` that are not completed. -/
def TaskService.getOverdueTasks (db : List ITask) (userId : Nat)
    (now : DateTime) : List ITask :=
  let userTasks := TaskRepository.findByUserId db userId none
  userTasks.filter (fun t =>
    match t.due_date with
    | none => false
    | some dueDate =>
      if t.status == TaskStatus.completed then false
      else decide (dueDate.toMs < now.toMs))

/-- A user row (`IUser`). -/
structure IUser where
  user_id : Nat
  username : String
  email : String
  password_hash : String
  role : String
  created_at : DateTime
  updated_at : DateTime
deriving DecidableEq, Repr

/-- A user with the `password_hash` field stripped
(`Omit<IUser, 'password_hash'>`). -/
structure IUserSafe where
  user_id : Nat
  username : String
  email : String
  role : String
  created_at : DateTime
  updated_at : DateTime
deriving DecidableEq, Repr

/-- The rest-destructuring `const { password_hash, ...userWithoutPassword }
= user`. -/
def IUser.withoutPassword (u : IUser) : IUserSafe :=
  { user_id := u.user_id, username := u.username, email := u.email,
    role := u.role, created_at := u.created_at, updated_at := u.updated_at }

/-- The fields of a `Partial<IUser>` update payload that
`UserRepository.update` and `UserService.updateUser` actually read
(`username`, `email`, `role`); all other keys are ignored by both. -/
structure IUserUpdate where
  username : Option String
  email : Option String
  role : Option String
deriving DecidableEq, Repr

/-- JS truthiness of an optional string field (`undefined` and `""` are
falsy). -/
def jsStrTruthy (o : Option String) : Bool :=
  match o with
  | some s => !(s == "")
  | none => false

/-- The punctuation class of the special-character regex in
`validatePasswordStrength`. -/
def passwordSpecialChars : List Char :=
  ['!', '@', '#', '$', '%', '^', '&', '*', '(', ')', '_', '+', '-', '=',
   '[', ']', '\x7b', '\x7d', ';', '\x27', ':', '"', '\\', '|', ',', '.',
   '<', '>', '/', '?']

/-- `validatePasswordStrength` (`utils/password.utils.ts`): first failing
rule wins — length ≥ 8, then at least one uppercase letter, lowercase
letter, digit, and special character. -/
def validatePasswordStrength (password : String) : Except ApiError Bool :=
  if password.length < 8 then
    .error (ApiError.badRequest "Password must be at least 8 characters long"
      "PASSWORD_TOO_SHORT")
  else if !(password.toList.any fun c => 'A' ≤ c && c ≤ 'Z') then
    .error (ApiError.badRequest
      "Password must contain at least one uppercase letter"
      "PASSWORD_NEEDS_UPPERCASE")
  else if !(password.toList.any fun c => 'a' ≤ c && c ≤ 'z') then
    .error (ApiError.badRequest
      "Password must contain at least one lowercase letter"
      "PASSWORD_NEEDS_LOWERCASE")
  else if !(password.toList.any fun c => '0' ≤ c && c ≤ '9') then
    .error (ApiError.badRequest "Password must contain at least one number"
      "PASSWORD_NEEDS_NUMBER")
  else if !(password.toList.any fun c => passwordSpecialChars.contains c) then
    .error (ApiError.badRequest
      "Password must contain at least one special character"
      "PASSWORD_NEEDS_SPECIAL")
  else
    .ok true

/-- `validatePassword`: delegates to `validatePasswordStrength` (the
common-password check is commented out in the source). -/
def validatePassword (password : String) : Except ApiError Bool :=
  validatePasswordStrength password

/-- `UserRepository.findById`: `SELECT * FROM users WHERE user_id = $1`. -/
def UserRepository.findById (db : List IUser) (id : Nat) : Option IUser :=
  db.find? (fun u => u.user_id == id)

/-- `UserRepository.findByEmail`: `SELECT * FROM users WHERE email = $1`. -/
def UserRepository.findByEmail (db : List IUser) (email : String) :
    Option IUser :=
  db.find? (fun u => u.email == email)

/-- `UserRepository.emailExists`: `SELECT COUNT(*) ... WHERE email = $1`. -/
def UserRepository.emailExists (db : List IUser) (email : String) : Bool :=
  db.any (fun u => u.email == email)

/-- `UserRepository.usernameExists`. -/
def UserRepository.usernameExists (db : List IUser) (username : String) :
    Bool :=
  db.any (fun u => u.username == username)

/-- `UPDATE users ... WHERE user_id = id` on the modelled row list. -/
def replaceUser (db : List IUser) (id : Nat) (u' : IUser) : List IUser :=
  db.map (fun u => if u.user_id == id then u' else u)

/-- `UserRepository.update`: re-reads the row (null when absent); for each
truthy field (`if (userData.username)` etc.) re-checks uniqueness when
the value differs from the current one (username first, then email) and
pushes a SET clause; `role` is pushed unconditionally when truthy.  When
no SET clause is built the unchanged row is returned. -/
def UserRepository.update (db : List IUser) (id : Nat)
    (userData : IUserUpdate) (now : DateTime) :
    Except ApiError (Option (IUser × List IUser)) :=
  match UserRepository.findById db id with
  | none => .ok none
  | some existingUser =>
    if jsStrTruthy userData.username
        && !(userData.username.getD "" == existingUser.username)
        && UserRepository.usernameExists db (userData.username.getD "") then
      .error (ApiError.badRequest "Username is already in use"
        "USERNAME_EXISTS")
    else if jsStrTruthy userData.email
        && !(userData.email.getD "" == existingUser.email)
        && UserRepository.emailExists db (userData.email.getD "") then
      .error (ApiError.badRequest "Email is already in use" "EMAIL_EXISTS")
    else if !(jsStrTruthy userData.username || jsStrTruthy userData.email
        || jsStrTruthy userData.role) then
      .ok (some (existingUser, db))
    else
      let u' : IUser :=
        { existingUser with
          username := if jsStrTruthy userData.username
            then userData.username.getD "" else existingUser.username
          email := if jsStrTruthy userData.email
            then userData.email.getD "" else existingUser.email
          role := if jsStrTruthy userData.role
            then userData.role.getD "" else existingUser.role
          updated_at := now }
      .ok (some (u', replaceUser db id u'))

/-- `UserRepository.changePassword`: validates the new password, hashes it
through the bcrypt collaborator `bhash`, UPDATEs the row; true iff a row
was updated. -/
def UserRepository.changePassword (db : List IUser)
    (bhash : String → String) (userId : Nat) (newPassword : String)
    (now : DateTime) : Except ApiError (Bool × List IUser) :=
  match validatePassword newPassword with
  | .error e => .error e
  | .ok _ =>
    let h := bhash newPassword
    (.ok (db.any (fun u => u.user_id == userId),
      db.map (fun u =>
        if u.user_id == userId then
          { u with password_hash := h, updated_at := now }
        else u)))

/-- The claims embedded in a JWT
(`{ id, username, email, role }`). -/
structure TokenPayload where
  id : Nat
  username : String
  email : String
  role : String
deriving DecidableEq, Repr

/-- What `UserService.login` resolves with on success. -/
structure LoginResult where
  user : IUserSafe
  accessToken : String
  refreshToken : String
deriving DecidableEq, Repr

/-- `UserService.login`: `INVALID_CREDENTIALS` (401) when no user has the
email; `INVALID_CREDENTIALS` (401) when `bcrypt.compare` of the supplied
password against the stored hash fails; otherwise issues tokens through
the collaborator `tokenGen` (modelling `generateTokens`) and returns the
user without the password hash.  `bcompare` models `bcrypt.compare`. -/
def UserService.login (db : List IUser)
    (bcompare : String → String → Bool)
    (tokenGen : TokenPayload → String × String)
    (email password : String) : Except ApiError LoginResult :=
  match UserRepository.findByEmail db email with
  | none =>
    .error (ApiError.unauthorized "Invalid credentials" "INVALID_CREDENTIALS")
  | some user =>
    if !(bcompare password user.password_hash) then
      .error (ApiError.unauthorized "Invalid credentials"
        "INVALID_CREDENTIALS")
    else
      let tokens := tokenGen
        { id := user.user_id, username := user.username,
          email := user.email, role := user.role }
      .ok { user := user.withoutPassword, accessToken := tokens.1,
            refreshToken := tokens.2 }

/-- `UserService.changePassword`: `USER_NOT_FOUND` (404) when the user is
absent; `INVALID_CURRENT_PASSWORD` when `bcrypt.compare` of
`currentPassword` against the stored hash fails; then validates the new
password's strength, and only after that rejects
`currentPassword === newPassword` with `PASSWORD_SAME`; finally delegates
to `UserRepository.changePassword`. -/
def UserService.changePassword (db : List IUser)
    (bcompare : String → String → Bool) (bhash : String → String)
    (userId : Nat) (currentPassword newPassword : String)
    (now : DateTime) : Except ApiError (Bool × List IUser) :=
  match UserRepository.findById db userId with
  | none => .error (ApiError.notFound "User not found" "USER_NOT_FOUND")
  | some user =>
    if !(bcompare currentPassword user.password_hash) then
      .error (ApiError.badRequest "Current password is incorrect"
        "INVALID_CURRENT_PASSWORD")
    else
      match validatePassword newPassword with
      | .error e => .error e
      | .ok _ =>
        if currentPassword == newPassword then
          .error (ApiError.badRequest
            "New password must be different from current password"
            "PASSWORD_SAME")
        else UserRepository.changePassword db bhash userId newPassword now

/-- The payload with its `role` key deleted
(`delete userData.role`). -/
def IUserUpdate.withoutRole (userData : IUserUpdate) : IUserUpdate :=
  { userData with role := none }

/-- `UserService.updateUser`: loads the target (null when absent);
`FORBIDDEN` when the caller is neither the target nor an admin; re-checks
uniqueness for a truthy `email`/`username` that differs from the current
value (email first, then username); deletes the `role` key when it is
truthy and the caller is not an admin (silently, no error); then delegates
to `UserRepository.update` and strips the hash from the result. -/
def UserService.updateUser (db : List IUser) (userId : Nat)
    (userData : IUserUpdate) (currentUserId : Nat) (isAdmin : Bool)
    (now : DateTime) : Except ApiError (Option (IUserSafe × List IUser)) :=
  match UserRepository.findById db userId with
  | none => .ok none
  | some existingUser =>
    if userId != currentUserId && !isAdmin then
      .error (ApiError.forbidden
        "You are not authorized to update this profile" "FORBIDDEN")
    else if jsStrTruthy userData.email
        && !(userData.email.getD "" == existingUser.email)
        && UserRepository.emailExists db (userData.email.getD "") then
      .error (ApiError.badRequest "Email is already in use" "EMAIL_EXISTS")
    else if jsStrTruthy userData.username
        && !(userData.username.getD "" == existingUser.username)
        && UserRepository.usernameExists db (userData.username.getD "") then
      .error (ApiError.badRequest "Username is already in use"
        "USERNAME_EXISTS")
    else
      match UserRepository.update db userId
          (if jsStrTruthy userData.role && !isAdmin
           then userData.withoutRole else userData) now with
      | .error e => .error e
      | .ok none => .ok none
      | .ok (some (updatedUser, db')) =>
        .ok (some (updatedUser.withoutPassword, db'))

/-- Membership is preserved by the insertion step of `sortTasks`. -/
theorem mem_insertTask (x a : ITask) :
    ∀ (l : List ITask), x ∈ insertTask a l ↔ x = a ∨ x ∈ l
  | [] => by simp [insertTask]
  | b :: l => by
    simp only [insertTask]
    split
    · simp
    · rw [List.mem_cons, mem_insertTask x a l, List.mem_cons]
      tauto

/-- `sortTasks` only permutes its input: membership is unchanged. -/
theorem mem_sortTasks (x : ITask) :
    ∀ (l : List ITask), x ∈ sortTasks l ↔ x ∈ l
  | [] => Iff.rfl
  | a :: l => by
    simp only [sortTasks]
    rw [mem_insertTask, mem_sortTasks x l, List.mem_cons]

/-- `findByUserId` with no query filters returns exactly the rows owned by
the user. -/
theorem mem_findByUserId (x : ITask) (db : List ITask) (userId : Nat) :
    x ∈ TaskRepository.findByUserId db userId none ↔
      x ∈ db ∧ x.user_id = userId := by
  unfold TaskRepository.findByUserId
  rw [mem_sortTasks, List.mem_filter]
  simp [matchesTaskQuery]

/-- Characterisation of `getTasksDueSoon` membership. -/
theorem mem_getTasksDueSoon (db : List ITask) (userId : Nat) (days : Int)
    (now : DateTime) (t : ITask) :
    t ∈ TaskService.getTasksDueSoon db userId days now ↔
      t ∈ db ∧ t.user_id = userId ∧
      ∃ d, t.due_date = some d ∧ t.status ≠ TaskStatus.completed ∧
        now.toMs ≤ d.toMs ∧
        d.toMs ≤ (DateTime.mk (now.day + days) now.ms).toMs := by
  unfold TaskService.getTasksDueSoon
  rw [List.mem_filter, mem_findByUserId]
  cases h : t.due_date with
  | none => simp [h]
  | some d =>
    by_cases hs : t.status = TaskStatus.completed <;>
      (simp [h, hs, and_assoc]; try tauto)

/-- Characterisation of `getOverdueTasks` membership. -/
theorem mem_getOverdueTasks (db : List ITask) (userId : Nat)
    (now : DateTime) (t : ITask) :
    t ∈ TaskService.getOverdueTasks db userId now ↔
      t ∈ db ∧ t.user_id = userId ∧
      ∃ d, t.due_date = some d ∧ t.status ≠ TaskStatus.completed ∧
        d.toMs < now.toMs := by
  unfold TaskService.getOverdueTasks
  rw [List.mem_filter, mem_findByUserId]
  cases h : t.due_date with
  | none => simp [h]
  | some d =>
    by_cases hs : t.status = TaskStatus.completed <;>
      simp [h, hs, and_assoc]

/-- C4: For every owner and days value, `getTasksDueSoon(ownerId, days)`
returns exactly the owner's tasks that have a non-null due_date, status
not equal to completed, and due_date within the inclusive window
[now, now + days].  Only the `completed` status is excluded — in
particular a `cancelled` task inside the window is returned, since the
filter compares the status against `completed` alone. -/
theorem getTasksDueSoon_exact_window (db : List ITask) (userId : Nat)
    (days : Int) (now : DateTime) (t : ITask) :
    t ∈ TaskService.getTasksDueSoon db userId days now ↔
      t ∈ db ∧ t.user_id = userId ∧
      ∃ d, t.due_date = some d ∧ t.status ≠ TaskStatus.completed ∧
        now.toMs ≤ d.toMs ∧
        d.toMs ≤ (DateTime.mk (now.day + days) now.ms).toMs :=
  mem_getTasksDueSoon db userId days now t

/-- C5: For every owner, `getOverdueTasks(ownerId)` returns exactly the
owner's tasks that have a non-null due_date strictly before now and
status not equal to completed. -/
theorem getOverdueTasks_exact (db : List ITask) (userId : Nat)
    (now : DateTime) (t : ITask) :
    t ∈ TaskService.getOverdueTasks db userId now ↔
      t ∈ db ∧ t.user_id = userId ∧
      ∃ d, t.due_date = some d ∧ t.status ≠ TaskStatus.completed ∧
        d.toMs < now.toMs :=
  mem_getOverdueTasks db userId now t

/-- C10: For a fixed evaluation time and any user's task set,
`getTasksDueSoon(userId, days)` and `getOverdueTasks(userId)` are
disjoint: due-soon requires `due_date ≥ now` while overdue requires
`due_date < now`. -/
theorem dueSoon_overdue_disjoint (db : List ITask) (userId : Nat)
    (days : Int) (now : DateTime) (t : ITask)
    (h : t ∈ TaskService.getTasksDueSoon db userId days now) :
    t ∉ TaskService.getOverdueTasks db userId now := by
  rw [mem_getTasksDueSoon] at h
  rw [mem_getOverdueTasks]
  rintro ⟨-, -, d, hd, -, hlt⟩
  obtain ⟨-, -, d', hd', -, hge, -⟩ := h
  rw [hd] at hd'
  cases hd'
  omega

/-- A concrete task used to witness the disjointness theorem. -/
def wC10task : ITask :=
  { task_id := 1, user_id := 7, category_id := none, priority_id := none,
    title := "t", description := none,
    due_date := some { day := 100, ms := 0 }, status := TaskStatus.pending,
    created_at := { day := 90, ms := 0 },
    updated_at := { day := 90, ms := 0 } }

/-- Witness for C10: a pending task due exactly at `now` is in the
due-soon window, and the theorem yields that it is not overdue. -/
theorem dueSoon_overdue_disjoint_witness :
    wC10task ∈ TaskService.getTasksDueSoon [wC10task] 7 3
      { day := 100, ms := 0 } ∧
    wC10task ∉ TaskService.getOverdueTasks [wC10task] 7
      { day := 100, ms := 0 } :=
  ⟨by decide,
   dueSoon_overdue_disjoint [wC10task] 7 3 { day := 100, ms := 0 } wC10task
     (by decide)⟩

/-- C1: For every update, delete, or changeStatus call on an existing task
where the caller is not the task's owner, the operation fails with the
typed `FORBIDDEN` error — it never silently succeeds and never returns a
null.  The service never passes `isAdmin` to `authorizeTaskOperation`
(defaulting it to false), so every non-owner caller — in particular one
who is neither owner nor admin — receives `Forbidden`. -/
theorem taskService_nonOwner_forbidden (db : List ITask) (taskId : Nat)
    (t : ITask) (data : ITaskUpdate) (status : String) (userId : Nat)
    (now : DateTime)
    (hfind : TaskRepository.findById db taskId = some t)
    (hne : t.user_id ≠ userId) :
    TaskService.updateTask db taskId data userId now =
      .error (ApiError.forbidden
        "Not authorized to perform this action on this task" "FORBIDDEN") ∧
    TaskService.deleteTask db taskId userId =
      .error (ApiError.forbidden
        "Not authorized to perform this action on this task" "FORBIDDEN") ∧
    TaskService.changeTaskStatus db taskId status userId now =
      .error (ApiError.forbidden
        "Not authorized to perform this action on this task" "FORBIDDEN") := by
  refine ⟨?_, ?_, ?_⟩ <;>
    simp [TaskService.updateTask, TaskService.deleteTask,
      TaskService.changeTaskStatus, hfind,
      TaskService.authorizeTaskOperation, hne]

/-- A task owned by user 1, used to witness the authorization theorems. -/
def wTaskOwner1 : ITask :=
  { task_id := 5, user_id := 1, category_id := none, priority_id := none,
    title := "mine", description := none, due_date := none,
    status := TaskStatus.pending, created_at := { day := 90, ms := 0 },
    updated_at := { day := 90, ms := 0 } }

/-- Witness for C1: caller 2 is not the owner of task 5; all three
operations fail with `FORBIDDEN`. -/
theorem taskService_nonOwner_forbidden_witness :
    TaskService.deleteTask [wTaskOwner1] 5 2 =
      .error (ApiError.forbidden
        "Not authorized to perform this action on this task" "FORBIDDEN") :=
  (taskService_nonOwner_forbidden [wTaskOwner1] 5 wTaskOwner1
    { title := some "x", description := none, category_id := none,
      priority_id := none, due_date := none, status := none }
    "completed" 2 { day := 100, ms := 0 } (by decide) (by decide)).2.1

/-- C2: Every successful create call persists and returns a task whose
status is `pending`, regardless of any `status` value supplied in the
input payload (the INSERT hard-wires the status column to
`TaskStatus.PENDING` and never reads a payload `status`). -/
theorem createTask_status_always_pending (db : List ITask)
    (data : ITaskCreate) (now : DateTime) (t : ITask) (db2 : List ITask)
    (h : TaskService.createTask db data now = .ok (t, db2)) :
    t.status = TaskStatus.pending ∧ db2 = db ++ [t] := by
  unfold TaskService.createTask at h
  split at h
  · exact Except.noConfusion h
  · unfold TaskRepository.create at h
    split at h
    · exact Except.noConfusion h
    · split at h
      · exact Except.noConfusion h
      · simp only [Except.ok.injEq, Prod.mk.injEq] at h
        obtain ⟨h1, h2⟩ := h
        subst h1
        subst h2
        exact ⟨rfl, rfl⟩

/-- A create payload that tries to smuggle in `status: "completed"`. -/
def wC2data : ITaskCreate :=
  { user_id := some 3, title := some "report", description := none,
    category_id := none, priority_id := none, due_date := none,
    status := some "completed" }

/-- The row the model INSERTs for `wC2data` on an empty table. -/
def wC2task : ITask :=
  { task_id := 1, user_id := 3, category_id := none, priority_id := none,
    title := "report", description := none, due_date := none,
    status := TaskStatus.pending, created_at := { day := 100, ms := 0 },
    updated_at := { day := 100, ms := 0 } }

/-- Witness for C2: creating with a smuggled `status: "completed"`
succeeds and the stored/returned status is `pending`. -/
theorem createTask_status_always_pending_witness :
    TaskService.createTask [] wC2data { day := 100, ms := 0 } =
      .ok (wC2task, [wC2task]) ∧
    wC2task.status = TaskStatus.pending :=
  ⟨by decide,
   (createTask_status_always_pending [] wC2data { day := 100, ms := 0 }
     wC2task [wC2task] (by decide)).1⟩

/-- C6: A login with an email for which no user exists and a login with an
existing email whose password hash check fails both fail with the
identical typed error (code `INVALID_CREDENTIALS`, status 401, same
message), so the error result does not reveal whether the email exists. -/
theorem login_error_indistinguishable (db : List IUser)
    (bcompare : String → String → Bool)
    (tokenGen : TokenPayload → String × String)
    (e1 p1 e2 p2 : String) (u : IUser)
    (h1 : UserRepository.findByEmail db e1 = none)
    (h2 : UserRepository.findByEmail db e2 = some u)
    (h3 : bcompare p2 u.password_hash = false) :
    UserService.login db bcompare tokenGen e1 p1 =
      .error (ApiError.unauthorized "Invalid credentials"
        "INVALID_CREDENTIALS") ∧
    UserService.login db bcompare tokenGen e2 p2 =
      .error (ApiError.unauthorized "Invalid credentials"
        "INVALID_CREDENTIALS") ∧
    UserService.login db bcompare tokenGen e1 p1 =
      UserService.login db bcompare tokenGen e2 p2 := by
  unfold UserService.login
  rw [h1, h2]
  simp [h3]

/-- A registered user for the login witness. -/
def wC6user : IUser :=
  { user_id := 1, username := "alice", email := "alice@example.com",
    password_hash := "stored-bcrypt-hash", role := "user",
    created_at := { day := 0, ms := 0 }, updated_at := { day := 0, ms := 0 } }

/-- Witness for C6: unknown email and wrong password produce the same
error against a concrete one-user database (the bcrypt collaborator
rejects every pair here, modelling a wrong password). -/
theorem login_error_indistinguishable_witness :
    UserService.login [wC6user] (fun _ _ => false)
        (fun _ => ("a", "r")) "nobody@example.com" "Whatever1!" =
      UserService.login [wC6user] (fun _ _ => false)
        (fun _ => ("a", "r")) "alice@example.com" "WrongPass1!" :=
  (login_error_indistinguishable [wC6user] (fun _ _ => false)
    (fun _ => ("a", "r")) "nobody@example.com" "Whatever1!"
    "alice@example.com" "WrongPass1!" wC6user
    (by decide) (by decide) rfl).2.2

/-- When the create payload's `due_date` parses, `Task.validateCreate`
never raises `INVALID_DUE_DATE` (its only due-date rule fires on a truthy
unparseable value). -/
theorem validateCreate_parseable_not_dueErr (data : ITaskCreate)
    (jd : JsDateInput) (d : DateTime) (e : ApiError)
    (hd : data.due_date = some jd) (hp : jd.parse = some d)
    (h : Task.validateCreate data = .error e) :
    e.code ≠ "INVALID_DUE_DATE" := by
  unfold Task.validateCreate at h
  split at h
  · cases h; decide
  · split at h
    · cases h; decide
    · split at h
      · cases h; decide
      · split at h
        · rename_i hcond
          rw [hd] at hcond
          simp [hp] at hcond
        · exact Except.noConfusion h

/-- When the update payload's `due_date` parses, `Task.validateUpdate`
never raises `INVALID_DUE_DATE`. -/
theorem validateUpdate_parseable_not_dueErr (data : ITaskUpdate)
    (jd : JsDateInput) (d : DateTime) (e : ApiError)
    (hd : data.due_date = some jd) (hp : jd.parse = some d)
    (h : Task.validateUpdate data = .error e) :
    e.code ≠ "INVALID_DUE_DATE" := by
  unfold Task.validateUpdate at h
  split at h
  · cases h; decide
  · split at h
    · cases h; decide
    · split at h
      · cases h; decide
      · split at h
        · rename_i hcond
          rw [hd] at hcond
          simp [hp] at hcond
        · split at h
          · cases h; decide
          · exact Except.noConfusion h

/-- When the create payload's `due_date` parses, `TaskRepository.create`
never fails with code `INVALID_DUE_DATE` (remaining failures are the
other validation codes or the 500 `SERVER_ERROR`). -/
theorem create_parseable_not_dueErr (db : List ITask) (data : ITaskCreate)
    (now : DateTime) (jd : JsDateInput) (d : DateTime) (e : ApiError)
    (hd : data.due_date = some jd) (hp : jd.parse = some d)
    (h : TaskRepository.create db data now = .error e) :
    e.code ≠ "INVALID_DUE_DATE" := by
  unfold TaskRepository.create at h
  split at h
  · rename_i hv
    cases h
    exact validateCreate_parseable_not_dueErr data jd d _ hd hp hv
  · split at h
    · cases h; decide
    · exact Except.noConfusion h

/-- When the update payload's `due_date` parses, `TaskRepository.update`
never fails with code `INVALID_DUE_DATE`. -/
theorem update_parseable_not_dueErr (db : List ITask) (id : Nat)
    (data : ITaskUpdate) (now : DateTime) (jd : JsDateInput)
    (d : DateTime) (e : ApiError)
    (hd : data.due_date = some jd) (hp : jd.parse = some d)
    (h : TaskRepository.update db id data now = .error e) :
    e.code ≠ "INVALID_DUE_DATE" := by
  unfold TaskRepository.update at h
  split at h
  · exact Except.noConfusion h
  · split at h
    · rename_i hv
      cases h
      exact validateUpdate_parseable_not_dueErr data jd d _ hd hp hv
    · split at h
      · exact Except.noConfusion h
      · split at h
        · cases h; decide
        · exact Except.noConfusion h

/-- An update payload whose `due_date` falls on the previous day
(day 99 against now = day 100). -/
def wC3pastUpdate : ITaskUpdate :=
  { title := none, description := none, category_id := none,
    priority_id := none,
    due_date := some (.dateObj { day := 99, ms := 0 }), status := none }

/-- C3 counterexample: an update call whose payload contains a due_date
falling on the previous day does not fail with `INVALID_DUE_DATE` when
the task does not exist — `updateTask` returns the NotFound sentinel
(null) before the due-date check runs, so the claim's universal
"always fails" is false for update calls. -/
theorem updateTask_pastDue_missingTask_no_error :
    TaskService.updateTask [] 1 wC3pastUpdate 1 { day := 100, ms := 0 } =
      .ok none := by decide

/-- C3 (amended): the due-date rule compares payload due_date and `now`
at floor-of-day granularity.  For create calls it runs unconditionally: a
previous-day due_date always fails with `INVALID_DUE_DATE` and a
current-day due_date never produces that code.  For update calls the same
holds provided the task exists and the caller is its owner (a missing
task returns the NotFound sentinel and a non-owner fails `FORBIDDEN`,
before the due-date check). -/
theorem dueDate_floor_of_day_check (db : List ITask) (cdata : ITaskCreate)
    (udata : ITaskUpdate) (taskId userId : Nat) (t0 : ITask)
    (now d du : DateTime) :
    (cdata.due_date = some (.dateObj d) → d.day = now.day - 1 →
      TaskService.createTask db cdata now =
        .error (ApiError.badRequest "Due date cannot be in the past"
          "INVALID_DUE_DATE")) ∧
    (cdata.due_date = some (.dateObj d) → d.day = now.day →
      ∀ e, TaskService.createTask db cdata now = .error e →
        e.code ≠ "INVALID_DUE_DATE") ∧
    (udata.due_date = some (.dateObj du) →
      TaskRepository.findById db taskId = some t0 → t0.user_id = userId →
      du.day = now.day - 1 →
      TaskService.updateTask db taskId udata userId now =
        .error (ApiError.badRequest "Due date cannot be in the past"
          "INVALID_DUE_DATE")) ∧
    (udata.due_date = some (.dateObj du) →
      TaskRepository.findById db taskId = some t0 → t0.user_id = userId →
      du.day = now.day →
      ∀ e, TaskService.updateTask db taskId udata userId now = .error e →
        e.code ≠ "INVALID_DUE_DATE") := by
  refine ⟨?_, ?_, ?_, ?_⟩
  · intro hd hday
    have hlt : d.day < now.day := by omega
    simp [TaskService.createTask, hd, jsOptTruthy, JsDateInput.truthy,
      TaskService.validateDueDate, JsDateInput.parse, hlt]
  · intro hd hday e he
    have hnlt : ¬(d.day < now.day) := by omega
    simp only [TaskService.createTask, hd, jsOptTruthy, JsDateInput.truthy,
      TaskService.validateDueDate, JsDateInput.parse, if_true,
      if_neg hnlt] at he
    exact create_parseable_not_dueErr db cdata now (.dateObj d) d e hd rfl he
  · intro hd hfind howner hday
    have hlt : du.day < now.day := by omega
    simp [TaskService.updateTask, hfind,
      TaskService.authorizeTaskOperation, howner, hd, jsOptTruthy,
      JsDateInput.truthy, TaskService.validateDueDate, JsDateInput.parse,
      hlt]
  · intro hd hfind howner hday e he
    have hnlt : ¬(du.day < now.day) := by omega
    simp only [TaskService.updateTask, hfind,
      TaskService.authorizeTaskOperation, howner, hd, jsOptTruthy,
      JsDateInput.truthy, TaskService.validateDueDate, JsDateInput.parse,
      bne_self_eq_false, Bool.false_and, Bool.not_false, if_true,
      if_neg hnlt] at he
    exact update_parseable_not_dueErr db taskId udata now (.dateObj du) du
      e hd rfl he

/-- Witness for C3: on a concrete database, a create with a previous-day
due_date fails with `INVALID_DUE_DATE`, and an update with a previous-day
due_date on an existing task owned by the caller also fails with
`INVALID_DUE_DATE`. -/
theorem dueDate_floor_of_day_check_witness :
    TaskService.createTask []
      { user_id := some 1, title := some "a", description := none,
        category_id := none, priority_id := none,
        due_date := some (.dateObj { day := 99, ms := 0 }), status := none }
      { day := 100, ms := 0 } =
      .error (ApiError.badRequest "Due date cannot be in the past"
        "INVALID_DUE_DATE") ∧
    TaskService.updateTask [wTaskOwner1] 5 wC3pastUpdate 1
      { day := 100, ms := 0 } =
      .error (ApiError.badRequest "Due date cannot be in the past"
        "INVALID_DUE_DATE") :=
  ⟨(dueDate_floor_of_day_check []
      { user_id := some 1, title := some "a", description := none,
        category_id := none, priority_id := none,
        due_date := some (.dateObj { day := 99, ms := 0 }), status := none }
      wC3pastUpdate 5 1 wTaskOwner1 { day := 100, ms := 0 }
      { day := 99, ms := 0 } { day := 99, ms := 0 }).1 rfl (by decide),
   (dueDate_floor_of_day_check [wTaskOwner1]
      { user_id := some 1, title := some "a", description := none,
        category_id := none, priority_id := none,
        due_date := some (.dateObj { day := 99, ms := 0 }), status := none }
      wC3pastUpdate 5 1 wTaskOwner1 { day := 100, ms := 0 }
      { day := 99, ms := 0 } { day := 99, ms := 0 }).2.2.1 rfl (by decide)
      (by decide) (by decide)⟩

/-- C9 counterexample: a create input whose `due_date` is present but not
parseable — the empty string — passes `validateCreate` without any error,
because the guard `data.due_date && isNaN(...)` tests JS truthiness and
the empty string is falsy.  The claim says every present-but-unparseable
due_date fails with `INVALID_DUE_DATE`; here validation succeeds.
(`validateUpdate` skips the same guard on this input for the same
reason.) -/
theorem validateCreate_emptyString_dueDate_ok :
    Task.validateCreate
      { user_id := some 1, title := some "a", description := none,
        category_id := none, priority_id := none,
        due_date := some .emptyStr, status := none } = .ok () := by decide

/-- C9 (amended): if `due_date` is provided as a truthy value that is not
parseable as a date (a non-empty unparseable string), `validateCreate`
fails with `INVALID_DUE_DATE` provided the earlier `user_id` and `title`
checks pass, and `validateUpdate` likewise provided any supplied title is
valid; a falsy `due_date` (the empty string) skips the check entirely. -/
theorem validators_truthy_unparseable_dueDate (cdata : ITaskCreate)
    (udata : ITaskUpdate) :
    (cdata.due_date = some .badStr → cdata.user_id ≠ none →
      (∀ n, cdata.user_id = some n → n ≠ 0) → cdata.title ≠ none →
      (∀ t, cdata.title = some t →
        (jsTrim t).length ≠ 0 ∧ t.length ≤ 100) →
      Task.validateCreate cdata =
        .error (ApiError.badRequest "Invalid due date format"
          "INVALID_DUE_DATE")) ∧
    (udata.due_date = some .badStr →
      (∀ t, udata.title = some t →
        (jsTrim t).length ≠ 0 ∧ t.length ≤ 100) →
      Task.validateUpdate udata =
        .error (ApiError.badRequest "Invalid due date format"
          "INVALID_DUE_DATE")) := by
  constructor
  · intro hd hu0 hu ht0 ht
    cases hcu : cdata.user_id with
    | none => exact absurd hcu hu0
    | some n =>
      cases hct : cdata.title with
      | none => exact absurd hct ht0
      | some t =>
        have hn0 : n ≠ 0 := hu n hcu
        obtain ⟨htrim, hlen⟩ := ht t hct
        have hnlen : ¬(t.length > 100) := by omega
        simp [Task.validateCreate, hcu, hct, hn0, htrim, hnlen, hd,
          jsOptTruthy, JsDateInput.truthy, JsDateInput.parse]
  · intro hd ht
    cases hct : udata.title with
    | none =>
      simp [Task.validateUpdate, ITaskUpdate.isEmptyPayload, hd, hct,
        jsOptTruthy, JsDateInput.truthy, JsDateInput.parse]
    | some t =>
      obtain ⟨htrim, hlen⟩ := ht t hct
      have hnlen : ¬(t.length > 100) := by omega
      simp [Task.validateUpdate, ITaskUpdate.isEmptyPayload, hd, hct,
        htrim, hnlen, jsOptTruthy, JsDateInput.truthy, JsDateInput.parse]

/-- Witness for C9 (amended): a non-empty unparseable due_date string
fails both validators with `INVALID_DUE_DATE` on concrete inputs whose
other fields are valid. -/
theorem validators_truthy_unparseable_dueDate_witness :
    Task.validateCreate
      { user_id := some 1, title := some "a", description := none,
        category_id := none, priority_id := none,
        due_date := some .badStr, status := none } =
      .error (ApiError.badRequest "Invalid due date format"
        "INVALID_DUE_DATE") ∧
    Task.validateUpdate
      { title := none, description := none, category_id := none,
        priority_id := none, due_date := some .badStr, status := none } =
      .error (ApiError.badRequest "Invalid due date format"
        "INVALID_DUE_DATE") :=
  ⟨(validators_truthy_unparseable_dueDate
      { user_id := some 1, title := some "a", description := none,
        category_id := none, priority_id := none,
        due_date := some .badStr, status := none }
      { title := none, description := none, category_id := none,
        priority_id := none, due_date := some .badStr,
        status := none }).1 rfl (by decide) (by decide) (by decide)
      (by decide),
   (validators_truthy_unparseable_dueDate
      { user_id := some 1, title := some "a", description := none,
        category_id := none, priority_id := none,
        due_date := some .badStr, status := none }
      { title := none, description := none, category_id := none,
        priority_id := none, due_date := some .badStr,
        status := none }).2 rfl (by decide)⟩

/-- A user whose stored hash is the bcrypt hash of the weak password
"weak2" (e.g. seeded directly in the database or created before the
strength rules); `bcrypt.compare("weak2", hash)` is then true. -/
def wC7user : IUser :=
  { user_id := 1, username := "bob", email := "bob@example.com",
    password_hash := "bcrypt-of-weak2", role := "user",
    created_at := { day := 0, ms := 0 }, updated_at := { day := 0, ms := 0 } }

/-- Model of `bcrypt.compare` consistent with `wC7user`'s stored hash. -/
def wC7compare : String → String → Bool :=
  fun p h => p == "weak2" && h == "bcrypt-of-weak2"

/-- Model of `bcrypt.hash` for the C7 scenarios. -/
def wC7hash : String → String :=
  fun p => "bcrypt-of-" ++ p

/-- C7 counterexample: the user exists, `currentPassword` matches the
stored hash, and `currentPassword` equals `newPassword`, yet the call
fails with `PASSWORD_TOO_SHORT`, not `PASSWORD_SAME` — the code runs
`validatePassword(newPassword)` before the same-password check, contrary
to the claim that the same-password check comes first. -/
theorem changePassword_same_weak_not_passwordSame :
    UserRepository.findById [wC7user] 1 = some wC7user ∧
    wC7compare "weak2" wC7user.password_hash = true ∧
    UserService.changePassword [wC7user] wC7compare wC7hash 1
      "weak2" "weak2" { day := 100, ms := 0 } =
      .error (ApiError.badRequest
        "Password must be at least 8 characters long"
        "PASSWORD_TOO_SHORT") ∧
    "PASSWORD_TOO_SHORT" ≠ "PASSWORD_SAME" := by decide

/-- C7 (amended): when the user exists, `currentPassword` matches the
stored hash, and `currentPassword` equals `newPassword`, the call fails
with `PASSWORD_SAME` provided `newPassword` passes strength validation.
The strength validation runs before the same-password check, so an
equal-but-weak `newPassword` fails with the strength error code
instead. -/
theorem changePassword_same_after_strength (db : List IUser)
    (bcompare : String → String → Bool) (bhash : String → String)
    (userId : Nat) (currentPassword newPassword : String)
    (u : IUser) (now : DateTime)
    (hfind : UserRepository.findById db userId = some u)
    (hmatch : bcompare currentPassword u.password_hash = true)
    (hstrong : validatePassword newPassword = .ok true)
    (hsame : currentPassword = newPassword) :
    UserService.changePassword db bcompare bhash userId currentPassword
      newPassword now =
      .error (ApiError.badRequest
        "New password must be different from current password"
        "PASSWORD_SAME") := by
  subst hsame
  unfold UserService.changePassword
  rw [hfind]
  simp [hmatch, hstrong]

/-- Witness for C7 (amended): equal strong passwords fail with
`PASSWORD_SAME` on a concrete database. -/
theorem changePassword_same_after_strength_witness :
    UserService.changePassword
      [{ wC7user with password_hash := "bcrypt-of-Valid123!" }]
      (fun p h => p == "Valid123!" && h == "bcrypt-of-Valid123!") wC7hash 1
      "Valid123!" "Valid123!" { day := 100, ms := 0 } =
      .error (ApiError.badRequest
        "New password must be different from current password"
        "PASSWORD_SAME") :=
  changePassword_same_after_strength
    [{ wC7user with password_hash := "bcrypt-of-Valid123!" }]
    (fun p h => p == "Valid123!" && h == "bcrypt-of-Valid123!") wC7hash 1
    "Valid123!" "Valid123!"
    { wC7user with password_hash := "bcrypt-of-Valid123!" }
    { day := 100, ms := 0 } (by decide) (by decide) (by decide) rfl

/-- A row found by `UserRepository.findById` carries the looked-up id. -/
theorem findById_user_id (db : List IUser) (id : Nat) (u : IUser)
    (h : UserRepository.findById db id = some u) : u.user_id = id := by
  unfold UserRepository.findById at h
  have := List.find?_some h
  simpa using this

/-- After `replaceUser db id u'` with `u'.user_id = id`, looking up `id`
finds `u'`, provided the lookup found some row before. -/
theorem findById_replaceUser (db : List IUser) (id : Nat) (u' : IUser)
    (hid : u'.user_id = id) :
    ∀ (u : IUser), UserRepository.findById db id = some u →
      UserRepository.findById (replaceUser db id u') id = some u' := by
  induction db with
  | nil => intro u h; simp [UserRepository.findById] at h
  | cons a l ih =>
    intro u h
    by_cases ha : a.user_id = id
    · simp [UserRepository.findById, replaceUser, List.find?, ha, hid]
    · have ha' : (a.user_id == id) = false := by simp [ha]
      have h' : UserRepository.findById l id = some u := by
        unfold UserRepository.findById at h ⊢
        rw [List.find?] at h
        simpa [ha'] using h
      have goal' := ih u h'
      unfold UserRepository.findById replaceUser at goal' ⊢
      rw [List.map_cons, List.find?]
      simpa [ha'] using goal'

/-- Shape of a successful `UserRepository.update`: the returned row takes
each truthy payload field and keeps the stored value otherwise, and the
new row list resolves the id to the returned row. -/
theorem userRepositoryUpdate_spec (db : List IUser) (id : Nat)
    (data : IUserUpdate) (now : DateTime) (u : IUser)
    (hfind : UserRepository.findById db id = some u) :
    ∀ ur db2, UserRepository.update db id data now = .ok (some (ur, db2)) →
      ur.role = (if jsStrTruthy data.role then data.role.getD ""
        else u.role) ∧
      ur.username = (if jsStrTruthy data.username then data.username.getD ""
        else u.username) ∧
      UserRepository.findById db2 id = some ur := by
  intro ur db2 h
  unfold UserRepository.update at h
  simp only [hfind] at h
  split at h
  · exact Except.noConfusion h
  · split at h
    · exact Except.noConfusion h
    · split at h
      · rename_i hnoset
        simp only [Except.ok.injEq, Option.some.injEq, Prod.mk.injEq] at h
        obtain ⟨h1, h2⟩ := h
        subst h1
        subst h2
        have htu : jsStrTruthy data.username = false := by
          revert hnoset
          cases jsStrTruthy data.username <;> simp
        have htr : jsStrTruthy data.role = false := by
          revert hnoset
          cases jsStrTruthy data.role <;> simp
        simp [htu, htr, hfind]
      · simp only [Except.ok.injEq, Option.some.injEq, Prod.mk.injEq] at h
        obtain ⟨h1, h2⟩ := h
        subst h1
        subst h2
        refine ⟨rfl, rfl, ?_⟩
        exact findById_replaceUser db id _
          (findById_user_id db id u hfind) u hfind

/-- A payload whose `role` is falsy updates exactly like the payload with
the `role` key removed: `UserRepository.update` only observes `role`
through its truthiness. -/
theorem update_role_falsy (db : List IUser) (id : Nat)
    (data : IUserUpdate) (now : DateTime)
    (h : jsStrTruthy data.role = false) :
    UserRepository.update db id data now =
      UserRepository.update db id data.withoutRole now := by
  unfold UserRepository.update
  cases UserRepository.findById db id with
  | none => rfl
  | some existingUser =>
    have hn : jsStrTruthy (none : Option String) = false := rfl
    simp [IUserUpdate.withoutRole, h, hn]

/-- Shape of a successful `UserService.updateUser`: the result is the
repository row (role-stripped payload when the caller is not an admin)
with the hash removed. -/
theorem userServiceUpdate_ok_shape (db : List IUser) (userId : Nat)
    (userData : IUserUpdate) (currentUserId : Nat) (isAdmin : Bool)
    (now : DateTime) (safeU : IUserSafe) (db2 : List IUser)
    (h : UserService.updateUser db userId userData currentUserId isAdmin
      now = .ok (some (safeU, db2))) :
    ∃ ur, UserRepository.update db userId
        (if jsStrTruthy userData.role && !isAdmin
         then userData.withoutRole else userData) now =
        .ok (some (ur, db2)) ∧
      safeU = ur.withoutPassword := by
  unfold UserService.updateUser at h
  split at h
  · exact Option.noConfusion (Except.ok.inj h)
  · split at h
    · exact Except.noConfusion h
    · split at h
      · exact Except.noConfusion h
      · split at h
        · exact Except.noConfusion h
        · split at h
          · exact Except.noConfusion h
          · exact absurd (Except.ok.inj h) (by simp)
          · rename_i ur db' hrepo
            simp only [Except.ok.injEq, Option.some.injEq,
              Prod.mk.injEq] at h
            obtain ⟨h1, h2⟩ := h
            subst h2
            exact ⟨ur, hrepo, h1.symm⟩

/-- C8: For every `updateUser` call with `isAdmin = false` made by the
target user themselves, a `role` field in the payload is stripped and
silently ignored without raising an error: the call behaves exactly like
the call with the `role` key removed, the stored and returned role is
unchanged whenever the update succeeds, and the other supplied fields
(here: a truthy `username`) are applied. -/
theorem updateUser_nonAdmin_role_stripped (db : List IUser) (userId : Nat)
    (userData : IUserUpdate) (u : IUser) (now : DateTime)
    (hfind : UserRepository.findById db userId = some u) :
    UserService.updateUser db userId userData userId false now =
      UserService.updateUser db userId userData.withoutRole userId false
        now ∧
    (∀ safeU db2,
      UserService.updateUser db userId userData userId false now =
        .ok (some (safeU, db2)) →
      safeU.role = u.role ∧
      ∀ u2, UserRepository.findById db2 userId = some u2 →
        u2.role = u.role) ∧
    (∀ n, userData.username = some n → n ≠ "" →
      ∀ safeU db2,
        UserService.updateUser db userId userData userId false now =
          .ok (some (safeU, db2)) →
        safeU.username = n) := by
  have hn : jsStrTruthy (none : Option String) = false := rfl
  have hrole' : jsStrTruthy
      (if jsStrTruthy userData.role && !false
       then userData.withoutRole else userData).role = false := by
    cases hr : jsStrTruthy userData.role <;>
      simp [hr, IUserUpdate.withoutRole, hn]
  have huser' : (if jsStrTruthy userData.role && !false
      then userData.withoutRole else userData).username =
      userData.username := by
    cases hr : jsStrTruthy userData.role <;>
      simp [hr, IUserUpdate.withoutRole]
  refine ⟨?_, ?_, ?_⟩
  · cases hr : jsStrTruthy userData.role with
    | true => simp [UserService.updateUser, IUserUpdate.withoutRole, hr, hn]
    | false =>
      have hcall := update_role_falsy db userId userData now hr
      simp [UserService.updateUser, IUserUpdate.withoutRole, hr, hn, hcall]
  · intro safeU db2 h
    obtain ⟨ur, hrepo, hsafe⟩ :=
      userServiceUpdate_ok_shape db userId userData userId false now safeU
        db2 h
    obtain ⟨hrole, -, hfind2⟩ :=
      userRepositoryUpdate_spec db userId _ now u hfind ur db2 hrepo
    rw [hrole', if_neg (by simp)] at hrole
    refine ⟨by rw [hsafe]; exact hrole, ?_⟩
    intro u2 hu2
    rw [hfind2] at hu2
    rw [← Option.some.inj hu2]
    exact hrole
  · intro n hun hne safeU db2 h
    obtain ⟨ur, hrepo, hsafe⟩ :=
      userServiceUpdate_ok_shape db userId userData userId false now safeU
        db2 h
    obtain ⟨-, husername, -⟩ :=
      userRepositoryUpdate_spec db userId _ now u hfind ur db2 hrepo
    rw [huser', hun] at husername
    have htru : jsStrTruthy (some n) = true := by simp [jsStrTruthy, hne]
    rw [htru, if_pos rfl] at husername
    rw [hsafe]
    exact husername

/-- Target user for the C8 witness. -/
def wC8user : IUser :=
  { user_id := 1, username := "carol", email := "carol@example.com",
    password_hash := "h", role := "user",
    created_at := { day := 0, ms := 0 }, updated_at := { day := 0, ms := 0 } }

/-- A self-update payload smuggling `role: "admin"` next to a legitimate
username change. -/
def wC8data : IUserUpdate :=
  { username := some "carol2", email := none, role := some "admin" }

/-- The row the model stores for the C8 witness update. -/
def wC8updated : IUser :=
  { user_id := 1, username := "carol2", email := "carol@example.com",
    password_hash := "h", role := "user",
    created_at := { day := 0, ms := 0 },
    updated_at := { day := 200, ms := 0 } }

/-- Witness for C8: the self-update succeeds, the smuggled role is
ignored (stored role still "user"), and the username is applied. -/
theorem updateUser_nonAdmin_role_stripped_witness :
    UserService.updateUser [wC8user] 1 wC8data 1 false
      { day := 200, ms := 0 } =
      .ok (some (wC8updated.withoutPassword, [wC8updated])) ∧
    wC8updated.withoutPassword.role = wC8user.role ∧
    wC8updated.withoutPassword.username = "carol2" :=
  ⟨by decide,
   ((updateUser_nonAdmin_role_stripped [wC8user] 1 wC8data wC8user
       { day := 200, ms := 0 } (by decide)).2.1
     wC8updated.withoutPassword [wC8updated] (by decide)).1,
   (updateUser_nonAdmin_role_stripped [wC8user] 1 wC8data wC8user
       { day := 200, ms := 0 } (by decide)).2.2 "carol2" rfl (by decide)
     wC8updated.withoutPassword [wC8updated] (by decide)⟩
